import Mathlib

/-!
Verification of the multi-agent research pipeline
(`research_pipeline.py` / `research_tools.py`).

The Python source is shallowly embedded here.  Language-model calls go
through a `Gateway` oracle parameter (model name and messages in, completion
text out), so every theorem quantifies over all possible model responses.
A Python exception that escapes a function is modelled by `Option.none`.
Python `float` division for the evaluator score is modelled by exact
rational (`ℚ`) division; for the quotients `t / n` of list lengths that
occur here the comparison with the threshold `0.5` agrees with IEEE double
semantics whenever `n < 2 ^ 52`, since a nonzero gap `|t/n - 1/2|` is at
least `1 / (2 n)`, far above the rounding error of one division.
-/

namespace ResearchPipeline

/-! ## Character classes used by the regular expressions in the source -/

/-- The characters matched by Python `re`'s `\s` class on `str` input,
restricted to the Latin-1 range (the full class also holds further Unicode
whitespace code points; every input considered in this development is
ASCII, where the classes agree). -/
def pyRegexSpace (c : Char) : Bool :=
  c = ' ' || c = '\t' || c = '\n' || c = '\r' || c = '\x0b' || c = '\x0c' ||
  c = '\x1c' || c = '\x1d' || c = '\x1e' || c = '\x1f' || c = '\x85' || c = '\xa0'

/-- A character ends a URL match of `https?://[^\s)\]]+`: whitespace, `)`
or `]` (the complement of the bracketed character class). -/
def isUrlStop (c : Char) : Bool :=
  pyRegexSpace c || c = ')' || c = ']'

/-! ## Generic list helpers (substring machinery for Python `in` and `re`) -/

/-- `listStartsWith pat cs` holds when `pat` is an initial segment of `cs`. -/
def listStartsWith : List Char → List Char → Bool
  | [], _ => true
  | _ :: _, [] => false
  | p :: ps, c :: cs => p = c && listStartsWith ps cs

/-- `listContainsSub pat cs` holds when `pat` occurs contiguously in `cs`:
the Python expression `pat in cs` on strings. -/
def listContainsSub (pat : List Char) : List Char → Bool
  | [] => pat.isEmpty
  | c :: cs => listStartsWith pat (c :: cs) || listContainsSub pat cs

/-- Python's substring test `pat in hay` on `str`. -/
def strContains (hay pat : String) : Bool :=
  listContainsSub pat.data hay.data

theorem listStartsWith_iff (pat cs : List Char) :
    listStartsWith pat cs = true ↔ ∃ t, cs = pat ++ t := by
  induction pat generalizing cs with
  | nil => simp [listStartsWith]
  | cons p ps ih =>
    cases cs with
    | nil =>
      simp [listStartsWith]
    | cons c cs =>
      simp only [listStartsWith, Bool.and_eq_true, decide_eq_true_eq, ih,
        List.cons_append, List.cons.injEq]
      constructor
      · rintro ⟨rfl, t, rfl⟩
        exact ⟨t, rfl, rfl⟩
      · rintro ⟨t, rfl, rfl⟩
        exact ⟨rfl, t, rfl⟩

theorem listContainsSub_iff (pat cs : List Char) :
    listContainsSub pat cs = true ↔ ∃ a b, cs = a ++ pat ++ b := by
  induction cs with
  | nil =>
    simp only [listContainsSub, List.isEmpty_iff]
    constructor
    · rintro rfl
      exact ⟨[], [], rfl⟩
    · rintro ⟨a, b, h⟩
      rcases List.append_eq_nil.mp (List.append_eq_nil.mp h.symm).1 with ⟨-, h2⟩
      exact h2
  | cons c cs ih =>
    simp only [listContainsSub, Bool.or_eq_true, listStartsWith_iff, ih]
    constructor
    · rintro (⟨t, ht⟩ | ⟨a, b, rfl⟩)
      · exact ⟨[], t, by simpa using ht⟩
      · exact ⟨c :: a, b, rfl⟩
    · rintro ⟨a, b, h⟩
      cases a with
      | nil => exact Or.inl ⟨b, by simpa using h⟩
      | cons a0 as =>
        right
        rcases h with h
        simp only [List.cons_append, List.append_assoc, List.cons.injEq] at h
        exact ⟨as, b, by simp [h.2, List.append_assoc]⟩

/-- First index of `cs` whose character satisfies `p`. -/
def firstIdx (p : Char → Bool) : List Char → Option Nat
  | [] => Option.none
  | c :: cs => if p c then Option.some 0 else (firstIdx p cs).map (· + 1)

/-- Last index of `cs` whose character satisfies `p`. -/
def lastIdx (p : Char → Bool) (cs : List Char) : Option Nat :=
  match firstIdx p cs.reverse with
  | Option.some k => Option.some (cs.length - 1 - k)
  | Option.none => Option.none

/-! ## URL extraction: `re.findall(r"(https?://[^\s)\]]+)", text)`

The scanner walks the text left to right.  At each position it tries to
match `http` + optional `s` + `://` followed by a non-empty maximal run of
non-stop characters (the regex is greedy and `re.findall` returns
non-overlapping matches, resuming after each match). -/

/-- Try to match the URL scheme `https?://` at the head of `cs`; return the
matched characters and the remainder.  (The alternative without `s` cannot
apply when an `s` follows `http`, since `:` ≠ `s`, so this deterministic
order agrees with the backtracking regex.) -/
def stripScheme : List Char → Option (List Char × List Char)
  | 'h' :: 't' :: 't' :: 'p' :: 's' :: ':' :: '/' :: '/' :: rest =>
    Option.some (('h' :: 't' :: 't' :: 'p' :: 's' :: ':' :: '/' :: '/' :: []), rest)
  | 'h' :: 't' :: 't' :: 'p' :: ':' :: '/' :: '/' :: rest =>
    Option.some (('h' :: 't' :: 't' :: 'p' :: ':' :: '/' :: '/' :: []), rest)
  | _ => Option.none

/-- Try to match one full URL at the head of `cs`: the scheme followed by at
least one non-stop character (greedy).  Returns the match and the rest. -/
def urlMatchAt (cs : List Char) : Option (List Char × List Char) :=
  match stripScheme cs with
  | Option.none => Option.none
  | Option.some (scheme, rest) =>
    let body := rest.takeWhile (fun c => !(isUrlStop c))
    if body.isEmpty then Option.none
    else Option.some (scheme ++ body, rest.drop body.length)

/-- Scanner for `re.findall`, with fuel bounding the number of positions
visited (each step consumes at least one character, so `cs.length` fuel
always suffices). -/
def findUrlsAux : Nat → List Char → List String
  | 0, _ => []
  | _, [] => []
  | fuel + 1, c :: cs =>
    match urlMatchAt (c :: cs) with
    | Option.some (url, rest) => String.mk url :: findUrlsAux fuel rest
    | Option.none => findUrlsAux fuel cs

/-- `re.findall(r"(https?://[^\s)\]]+)", research_output)`: all URL matches
in order, duplicates preserved. -/
def findUrls (s : String) : List String :=
  findUrlsAux s.data.length s.data

/-! ## Source-quality evaluator: `eval_error_analysis` -/

/-- The fixed allow-list `preferred_domains` of the evaluator. -/
def preferred_domains : List String :=
  ["arxiv.org", "nature.com", "nasa.gov", "science.org", "mit.edu"]

/-- `any(dom in u for dom in preferred_domains)`: the URL `u` is trusted
when it contains some allow-listed domain as a substring. -/
def isTrustedUrl (u : String) : Bool :=
  preferred_domains.any (fun dom => strContains u dom)

/-- `trusted = [u for u in urls if any(dom in u for dom in preferred_domains)]`. -/
def eval_trusted (research_output : String) : List String :=
  (findUrls research_output).filter isTrustedUrl

/-- `score = len(trusted) / len(urls) if urls else 0.0`, as an exact
rational. -/
def eval_score (research_output : String) : ℚ :=
  let urls := findUrls research_output
  if urls.isEmpty then 0
  else ((eval_trusted research_output).length : ℚ) / (urls.length : ℚ)

/-- `status = "PASS" if score > 0.5 else "FAIL (Low Credibility)"`; the
function returns `status`. -/
def eval_error_analysis (research_output : String) : String :=
  if eval_score research_output > 1 / 2 then "PASS" else "FAIL (Low Credibility)"

/-! ## Python literal values and `ast.literal_eval`

`ast.literal_eval` evaluates the literal grammar only: it never calls,
subscripts, or resolves names, so its result is pure data.  `PyVal` is that
data type, restricted to the literal forms relevant here (strings,
integers, booleans, `None`, nested lists; Python additionally has floats,
complex numbers, bytes, tuples, dicts and sets, none of which occur in any
input this development evaluates).  A parse failure models the
`ValueError`/`SyntaxError` that `ast.literal_eval` raises. -/

inductive PyVal where
  | str : String → PyVal
  | int : Int → PyVal
  | bool : Bool → PyVal
  | noneV : PyVal
  | list : List PyVal → PyVal
  deriving Repr

/-- Whitespace the Python tokenizer skips between tokens inside brackets. -/
def pyTokSpace (c : Char) : Bool :=
  c = ' ' || c = '\t' || c = '\n' || c = '\r' || c = '\x0c'

/-- Skip inter-token whitespace. -/
def skipWs (cs : List Char) : List Char :=
  cs.dropWhile pyTokSpace

/-- A character that may continue an identifier or number token (used to
reject e.g. `Truex` or `12a`, which Python tokenizes as errors or names). -/
def isIdentChar (c : Char) : Bool :=
  c.isAlphanum || c = '_'

/-- The token ending at the head of `cs` is properly delimited. -/
def boundaryOk (cs : List Char) : Bool :=
  match cs with
  | [] => true
  | c :: _ => !(isIdentChar c)

/-- Translation of one backslash escape inside a Python string literal
(unknown escapes keep the backslash, as Python does). -/
def escChar (e : Char) : List Char :=
  if e = 'n' then ['\n']
  else if e = 't' then ['\t']
  else if e = 'r' then ['\r']
  else if e = '\\' then ['\\']
  else if e = '\x27' then ['\x27']
  else if e = '"' then ['"']
  else if e = '0' then ['\x00']
  else ['\\', e]

/-- Parse the body of a string literal opened with quote `q` (the quote is
already consumed); a raw newline or end of input before the closing quote
is an error. -/
def parseStrBody (q : Char) : Nat → List Char → Option (List Char × List Char)
  | 0, _ => Option.none
  | _, [] => Option.none
  | fuel + 1, c :: cs =>
    if c = q then Option.some ([], cs)
    else if c = '\\' then
      match cs with
      | [] => Option.none
      | e :: cs2 =>
        match parseStrBody q fuel cs2 with
        | Option.some (body, rest) => Option.some (escChar e ++ body, rest)
        | Option.none => Option.none
    else if c = '\n' then Option.none
    else
      match parseStrBody q fuel cs with
      | Option.some (body, rest) => Option.some (c :: body, rest)
      | Option.none => Option.none

/-- Value of a run of decimal digits. -/
def digitsVal (ds : List Char) : Nat :=
  ds.foldl (fun a c => 10 * a + (c.toNat - 48)) 0

mutual

/-- Parse one Python literal value from `cs` (leading whitespace allowed):
string, signed integer, `True`/`False`/`None`, or bracketed list.  Anything
else — names, calls, operators, attribute access — fails, exactly as
`ast.literal_eval` rejects every non-literal construct. -/
def parseVal : Nat → List Char → Option (PyVal × List Char)
  | 0, _ => Option.none
  | fuel + 1, cs0 =>
    match skipWs cs0 with
    | [] => Option.none
    | c :: rest =>
      if c = '"' || c = '\x27' then
        match parseStrBody c fuel rest with
        | Option.some (body, r) => Option.some (PyVal.str (String.mk body), r)
        | Option.none => Option.none
      else if c = '[' then
        parseListRest fuel (skipWs rest)
      else if c.isDigit then
        let ds := (c :: rest).takeWhile Char.isDigit
        let r := (c :: rest).drop ds.length
        if boundaryOk r then Option.some (PyVal.int (digitsVal ds), r)
        else Option.none
      else if c = '-' || c = '+' then
        match skipWs rest with
        | d :: rest2 =>
          if d.isDigit then
            let ds := (d :: rest2).takeWhile Char.isDigit
            let r := (d :: rest2).drop ds.length
            if boundaryOk r then
              Option.some (PyVal.int (if c = '-' then -(digitsVal ds : Int) else (digitsVal ds : Int)), r)
            else Option.none
          else Option.none
        | [] => Option.none
      else if listStartsWith "True".data (c :: rest) && boundaryOk ((c :: rest).drop 4) then
        Option.some (PyVal.bool true, (c :: rest).drop 4)
      else if listStartsWith "False".data (c :: rest) && boundaryOk ((c :: rest).drop 5) then
        Option.some (PyVal.bool false, (c :: rest).drop 5)
      else if listStartsWith "None".data (c :: rest) && boundaryOk ((c :: rest).drop 4) then
        Option.some (PyVal.noneV, (c :: rest).drop 4)
      else Option.none

/-- Parse the elements of a list literal whose `[` has been consumed
(leading whitespace already skipped); handles the empty list, separating
commas and Python's optional trailing comma. -/
def parseListRest : Nat → List Char → Option (PyVal × List Char)
  | 0, _ => Option.none
  | fuel + 1, cs =>
    match cs with
    | ']' :: r => Option.some (PyVal.list [], r)
    | _ =>
      match parseVal fuel cs with
      | Option.none => Option.none
      | Option.some (v, r) =>
        match skipWs r with
        | ',' :: r2 =>
          match parseListRest fuel (skipWs r2) with
          | Option.some (PyVal.list vs, r3) => Option.some (PyVal.list (v :: vs), r3)
          | _ => Option.none
        | ']' :: r2 => Option.some (PyVal.list [v], r2)
        | _ => Option.none

end

/-- `ast.literal_eval(s)`: parse one literal spanning the whole string
(surrounding whitespace allowed); `Option.none` models the raised
`ValueError`/`SyntaxError`. -/
def pyLiteralEval (s : String) : Option PyVal :=
  match parseVal (2 * s.length + 2) s.data with
  | Option.some (v, rest) =>
    if (skipWs rest).isEmpty then Option.some v else Option.none
  | Option.none => Option.none

/-! ## The planner: `planning_agent` -/

/-- `re.search(r"\[.*\]", content, re.DOTALL)`: with `.` matching
newlines, the leftmost match of this greedy pattern runs from the first `[`
that precedes the final `]` of the text up to that final `]`; there is no
match when no `[` precedes the last `]`. -/
def bracketMatch (s : String) : Option String :=
  match firstIdx (fun c => c = '[') s.data, lastIdx (fun c => c = ']') s.data with
  | Option.some i, Option.some j =>
    if i < j then Option.some (String.mk ((s.data.take (j + 1)).drop i)) else Option.none
  | _, _ => Option.none

/-- `plan = ast.literal_eval(match.group()) if match else [topic]`.
When the regex finds no bracketed substring the plan falls back to
`[topic]`; when it finds one, `ast.literal_eval` runs on it and an
uncaught decode exception (`Option.none`) propagates out of
`planning_agent` — there is no fallback on that path. -/
def planning_decode (content : String) (topic : String) : Option (List PyVal) :=
  match bracketMatch content with
  | Option.none => Option.some [PyVal.str topic]
  | Option.some m =>
    match pyLiteralEval m with
    | Option.some (PyVal.list xs) => Option.some xs
    | _ => Option.none

/-! ## The gateway and the agents -/

/-- One chat message: `{"role": ..., "content": ...}`. -/
structure Msg where
  role : String
  content : String
  deriving Repr

/-- The model gateway `CLIENT.chat.completions.create(model, messages)`
abstracted as an oracle from model name and messages to completion text;
theorems quantify over it, so they hold for every model behaviour. -/
def Gateway : Type :=
  String → List Msg → String

def PLANNER_MODEL : String := "openai:o4-mini"
def RESEARCH_MODEL : String := "openai:gpt-4o"
def WRITER_MODEL : String := "openai:gpt-4o"
def EDITOR_MODEL : String := "openai:o4-mini"

/-- The planner's f-string prompt (triple-quoted, hence the embedded
newlines and indentation). -/
def planner_prompt (topic : String) : String :=
  "\n    You are a Research Architect. Decompose the topic \"" ++ topic ++
  "\" into 4-5 \n    atomic, sequential research steps. Return ONLY a valid Python list of strings.\n    "

/-- The planner's single gateway call. -/
def planner_response (gw : Gateway) (topic : String) : String :=
  gw PLANNER_MODEL [⟨"user", planner_prompt topic⟩]

/-- `planning_agent(topic)`: one planner-model call, then regex extraction
and literal decoding; `Option.none` models an uncaught exception. -/
def planning_agent (gw : Gateway) (topic : String) : Option (List PyVal) :=
  planning_decode (planner_response gw topic) topic

/-! ## Python `str()` of decoded plan elements (f-string interpolation) -/

mutual

/-- Python `str(v)` as used by the f-strings that interpolate a plan step. -/
def pyStr : PyVal → String
  | PyVal.str s => s
  | PyVal.int n => toString n
  | PyVal.bool b => if b then "True" else "False"
  | PyVal.noneV => "None"
  | PyVal.list xs => "[" ++ pyReprList xs ++ "]"

/-- Python `repr(v)` (strings rendered with single quotes; escape
sequences inside the rendered string are not re-encoded, which agrees with
`repr` on the quote-free ASCII strings occurring here). -/
def pyReprV : PyVal → String
  | PyVal.str s => "\x27" ++ s ++ "\x27"
  | PyVal.int n => toString n
  | PyVal.bool b => if b then "True" else "False"
  | PyVal.noneV => "None"
  | PyVal.list xs => "[" ++ pyReprList xs ++ "]"

/-- Comma-separated `repr`s of the elements of a list. -/
def pyReprList : List PyVal → String
  | [] => ""
  | [x] => pyReprV x
  | x :: y :: rest => pyReprV x ++ ", " ++ pyReprList (y :: rest)

end

/-! ## The step researcher: `tools_usage_agent` -/

/-- The researcher's prompt, combining the current date and the step. -/
def tools_prompt (current_date task : String) : String :=
  "Date: " ++ current_date ++ ". Perform deep research on: " ++ task ++
  ". Provide citations and URLs."

/-- `tools_usage_agent(task)`: one research-model call, returning the raw
completion verbatim.  The current date (`datetime.now()`) is passed in as
a parameter of the run. -/
def tools_usage_agent (gw : Gateway) (current_date task : String) : String :=
  gw RESEARCH_MODEL [⟨"user", tools_prompt current_date task⟩]

/-! ## The orchestrator's research loop -/

/-- The label prepended to each step's findings in the accumulated data:
`f"\n\n--- Findings for: {step} ---\n"`. -/
def step_label (step : String) : String :=
  "\n\n--- Findings for: " ++ step ++ " ---\n"

/-- One iteration of the orchestrator's `for step in plan` loop: run the
researcher, run the evaluator (its verdict is a side channel), and append
the labeled finding to the accumulated data. -/
def research_step (gw : Gateway) (current_date : String)
    (acc : String × List String) (step : String) : String × List String :=
  let raw := tools_usage_agent gw current_date step
  let verdict := eval_error_analysis raw
  (acc.1 ++ (step_label step ++ raw), acc.2 ++ [verdict])

/-- The whole loop, starting from `accumulated_data = ""`: returns the
accumulated corpus and the per-step verdicts in emission order. -/
def research_loop (gw : Gateway) (current_date : String)
    (plan : List String) : String × List String :=
  plan.foldl (research_step gw current_date) ("", [])

/-! ## The drafting/reflection engine: `drafting_reflection_loop` -/

def draft_prompt (topic data : String) : String :=
  "Draft an in-depth report on " ++ topic ++ " using: " ++ data

def critique_prompt (draft : String) : String :=
  "Critique this for academic depth and accuracy:\n" ++ draft

def revise_user_content (reflection draft : String) : String :=
  "Critique: " ++ reflection ++ "\n\nDraft: " ++ draft

/-- Phase 1 output: the draft. -/
def draft_of (gw : Gateway) (topic data : String) : String :=
  gw WRITER_MODEL [⟨"user", draft_prompt topic data⟩]

/-- Phase 2 output: the critique of the phase-1 draft. -/
def reflection_of (gw : Gateway) (topic data : String) : String :=
  gw EDITOR_MODEL [⟨"user", critique_prompt (draft_of gw topic data)⟩]

/-- `drafting_reflection_loop(topic, data)`: draft, critique, revise —
the phase-3 call's messages carry the full critique and draft. -/
def drafting_reflection_loop (gw : Gateway) (topic data : String) : String :=
  gw WRITER_MODEL
    [⟨"system", "Revise based on critique."⟩,
     ⟨"user", revise_user_content (reflection_of gw topic data) (draft_of gw topic data)⟩]

/-- The trace of gateway calls the engine makes, in execution order (model
name and messages of each call). -/
def drafting_calls (gw : Gateway) (topic data : String) : List (String × List Msg) :=
  [(WRITER_MODEL, [⟨"user", draft_prompt topic data⟩]),
   (EDITOR_MODEL, [⟨"user", critique_prompt (draft_of gw topic data)⟩]),
   (WRITER_MODEL,
    [⟨"system", "Revise based on critique."⟩,
     ⟨"user", revise_user_content (reflection_of gw topic data) (draft_of gw topic data)⟩])]

/-! ## The executor: `run_research_pipeline` -/

/-- `run_research_pipeline(topic)`: plan, research-and-evaluate every step
in order, then compose.  Produces the final report and the per-step
verdict side channel; `Option.none` models the run aborting on the
planner's uncaught decode exception. -/
def run_research_pipeline (gw : Gateway) (current_date topic : String) :
    Option (String × List String) :=
  match planning_agent gw topic with
  | Option.none => Option.none
  | Option.some plan =>
    let res := research_loop gw current_date (plan.map pyStr)
    Option.some (drafting_reflection_loop gw topic res.1, res.2)

/-! ## Concrete gateways used to exhibit behaviours -/

/-- A gateway whose planner response contains no bracketed substring. -/
def noBracketGw : Gateway := fun _ _ => "no list appears in this response"

/-- A gateway whose planner response has a bracketed substring that is not
a valid Python literal. -/
def malformedGw : Gateway := fun _ _ => "The plan is [not a literal] as requested"

/-- A gateway whose planner response embeds two separate well-formed
list-literals. -/
def twoListGw : Gateway := fun _ _ => "Steps: [\"a\"] then [\"b\"] done"

/-- A gateway whose planner response embeds exactly one well-formed
list-literal of strings and no other brackets. -/
def singleListGw : Gateway := fun _ _ => "Here is your plan: [\"s1\", \"s2\"] good luck"

/-- A gateway whose planner response is a list-literal of integers. -/
def numericListGw : Gateway := fun _ _ => "[1, 2]"

/-- A gateway whose planner response is the empty list-literal. -/
def emptyListGw : Gateway := fun _ _ => "[]"

/-- A gateway for an end-to-end run: the planner/editor model gets a
two-step plan, every other call gets a finding citing an allow-listed
URL. -/
def demoGw : Gateway := fun model _ =>
  if model = "openai:gpt-4o" then
    "Finding with citation https://arxiv.org/abs/2401.00001 included"
  else "Here is the plan: [\"step one\", \"step two\"]"

/-! ## Claim C1 — planner fallback and abort behaviour -/

/-- C1, counterexample.  The claim states that whenever decoding the
located list-literal substring fails, `plan(topic)` still returns
`[topic]` and never raises.  On the response
`"The plan is [not a literal] as requested"` the regex finds
`"[not a literal]"`, `ast.literal_eval` raises on it, and the exception
propagates out of `planning_agent` (modelled `Option.none`): the planner
aborts instead of returning `[topic]`. -/
theorem claim1_counterexample :
    bracketMatch "The plan is [not a literal] as requested" =
      Option.some "[not a literal]" ∧
    pyLiteralEval "[not a literal]" = Option.none ∧
    planning_agent malformedGw "T" = Option.none ∧
    Option.none ≠ Option.some [PyVal.str "T"] :=
  ⟨rfl, rfl, rfl, by simp⟩

/-- C1, amended.  The fallback to `[topic]` happens only when the regex
finds no bracketed substring at all; when a bracketed substring is found
and its decoding fails, the decode exception propagates and the planner
aborts (there is no fallback on that path). -/
theorem claim1_fallback_and_abort (gw : Gateway) (topic m : String) :
    (bracketMatch (planner_response gw topic) = Option.none →
      planning_agent gw topic = Option.some [PyVal.str topic]) ∧
    (bracketMatch (planner_response gw topic) = Option.some m →
      pyLiteralEval m = Option.none →
      planning_agent gw topic = Option.none) := by
  constructor
  · intro h
    simp only [planning_agent, planning_decode, h]
  · intro h1 h2
    simp only [planning_agent, planning_decode, h1, h2]

/-- C1, witness: both branches of the amended claim at concrete
gateways. -/
theorem claim1_fallback_and_abort_witness :
    planning_agent noBracketGw "Topic" = Option.some [PyVal.str "Topic"] ∧
    planning_agent malformedGw "Topic" = Option.none :=
  ⟨(claim1_fallback_and_abort noBracketGw "Topic" "").1 rfl,
   (claim1_fallback_and_abort malformedGw "Topic" "[not a literal]").2 rfl rfl⟩

/-! ## Claim C3 — which list-literal the planner locates -/

/-- C3, counterexample.  The claim states the planner locates the *first
syntactically valid* list-literal substring and returns its strings.  The
response `"Steps: [\"a\"] then [\"b\"] done"` embeds the well-formed
list-literal `["a"]` first, but the greedy regex `\[.*\]` matches from the
first `[` to the *last* `]`, producing `[\"a\"] then [\"b\"]`, which is
not a valid literal: decoding raises and the planner aborts instead of
returning `["a"]`. -/
theorem claim3_counterexample :
    pyLiteralEval "[\"a\"]" = Option.some (PyVal.list [PyVal.str "a"]) ∧
    bracketMatch "Steps: [\"a\"] then [\"b\"] done" =
      Option.some "[\"a\"] then [\"b\"]" ∧
    planning_agent twoListGw "T" = Option.none ∧
    Option.none ≠ Option.some [PyVal.str "a"] :=
  ⟨rfl, rfl, rfl, by simp⟩

/-- C3, amended.  The planner takes the greedy match running from the
first `[` to the last `]` of the response; when that entire matched
substring is a well-formed list-literal, the plan is exactly its decoded
elements in order. -/
theorem claim3_greedy_match_decode (gw : Gateway) (topic m : String) (xs : List PyVal)
    (h1 : bracketMatch (planner_response gw topic) = Option.some m)
    (h2 : pyLiteralEval m = Option.some (PyVal.list xs)) :
    planning_agent gw topic = Option.some xs := by
  simp only [planning_agent, planning_decode, h1, h2]

/-- C3, witness: a response whose single bracketed region is a
well-formed two-string literal decodes to exactly those strings in
order. -/
theorem claim3_greedy_match_decode_witness :
    planning_agent singleListGw "T" =
      Option.some [PyVal.str "s1", PyVal.str "s2"] :=
  claim3_greedy_match_decode singleListGw "T" "[\"s1\", \"s2\"]"
    [PyVal.str "s1", PyVal.str "s2"] rfl rfl

/-! ## Claim C4 — what grammar the decoder accepts -/

/-- C4, counterexample.  The claim states the decoder accepts *only* a
literal-sequence-of-strings grammar, rejecting non-string literals.  But
`ast.literal_eval` accepts every Python literal: on the response
`"[1, 2]"` the planner succeeds and returns a plan of two *integers*. -/
theorem claim4_counterexample :
    planning_agent numericListGw "T" =
      Option.some [PyVal.int 1, PyVal.int 2] := rfl

/-- C4, amended.  The decoder evaluates only Python literal syntax and
never executes code — names, attribute access, calls and arithmetic
expressions are all rejected — but it does not restrict the accepted
literal to a sequence of strings: a list of non-string literals (e.g.
integers) is accepted and becomes the plan. -/
theorem claim4_literal_only_decoder :
    pyLiteralEval "[os.system(x)]" = Option.none ∧
    pyLiteralEval "[1+1]" = Option.none ∧
    pyLiteralEval "[__import__]" = Option.none ∧
    pyLiteralEval "[1, 2]" = Option.some (PyVal.list [PyVal.int 1, PyVal.int 2]) ∧
    planning_decode "[1, 2]" "T" = Option.some [PyVal.int 1, PyVal.int 2] :=
  ⟨rfl, rfl, rfl, rfl, rfl⟩

/-! ## Claim C5 — plan non-emptiness -/

/-- C5, counterexample.  The claim states every returned plan has length
at least 1.  On the response `"[]"` the regex matches `[]`, which decodes
to the empty list: `planning_agent` returns an empty plan. -/
theorem claim5_counterexample :
    planning_agent emptyListGw "T" = Option.some [] ∧
    List.length ([] : List PyVal) = 0 :=
  ⟨rfl, rfl⟩

/-- C5, amended.  Non-emptiness holds on the fallback path: when the
response has no bracketed substring the plan is the single-element
`[topic]` (length 1).  It does not hold in general: a response decoding
to `[]` yields an empty plan. -/
theorem claim5_fallback_nonempty (gw : Gateway) (topic : String)
    (h : bracketMatch (planner_response gw topic) = Option.none) :
    planning_agent gw topic = Option.some [PyVal.str topic] ∧
    1 ≤ List.length [PyVal.str topic] := by
  constructor
  · unfold planning_agent planning_decode
    rw [h]
  · simp

/-- C5, witness: the fallback branch at a concrete bracket-free
gateway. -/
theorem claim5_fallback_nonempty_witness :
    planning_agent noBracketGw "some topic" =
      Option.some [PyVal.str "some topic"] ∧
    1 ≤ List.length [PyVal.str "some topic"] :=
  claim5_fallback_nonempty noBracketGw "some topic" rfl

/-! ## Shared evaluator lemmas -/

theorem eval_score_of_empty (s : String) (h : findUrls s = []) :
    eval_score s = 0 := by
  unfold eval_score
  rw [h]
  rfl

theorem eval_score_of_nonempty (s : String) (h : findUrls s ≠ []) :
    eval_score s = ((eval_trusted s).length : ℚ) / ((findUrls s).length : ℚ) := by
  unfold eval_score
  rw [if_neg]
  simpa [List.isEmpty_iff] using h

theorem eval_status_of_not_gt (s : String) (h : ¬ eval_score s > 1 / 2) :
    eval_error_analysis s = "FAIL (Low Credibility)" := by
  unfold eval_error_analysis
  rw [if_neg h]

/-! ## Claim C2 — the PASS threshold is strict -/

/-- An input whose finding has exactly one allow-listed URL out of two. -/
def half_example : String := "http://arxiv.org/a http://example.com/b"

/-- C2: the evaluator returns PASS exactly when the score strictly exceeds
one half; a score of exactly one half yields the FAIL status, and a
finding with no URLs scores `0.0` and yields the FAIL status. -/
theorem claim2_threshold (s : String) :
    (eval_error_analysis s = "PASS" ↔ eval_score s > 1 / 2) ∧
    (eval_score s = 1 / 2 → eval_error_analysis s = "FAIL (Low Credibility)") ∧
    (findUrls s = [] →
      eval_score s = 0 ∧ eval_error_analysis s = "FAIL (Low Credibility)") := by
  refine ⟨?_, ?_, ?_⟩
  · by_cases h : eval_score s > 1 / 2
    · rw [eval_error_analysis, if_pos h]
      exact ⟨fun _ => h, fun _ => rfl⟩
    · rw [eval_error_analysis, if_neg h]
      exact ⟨fun heq => absurd heq (by decide), fun hgt => absurd hgt h⟩
  · intro he
    exact eval_status_of_not_gt s (by rw [he]; exact lt_irrefl _)
  · intro h
    have h0 := eval_score_of_empty s h
    refine ⟨h0, eval_status_of_not_gt s ?_⟩
    rw [h0]
    norm_num

/-- C2, witness: the boundary case `score == 0.5` on a concrete
two-URL finding and the zero-URL case on the empty finding. -/
theorem claim2_threshold_witness :
    eval_score half_example = 1 / 2 ∧
    eval_error_analysis half_example = "FAIL (Low Credibility)" ∧
    eval_score "" = 0 ∧
    eval_error_analysis "" = "FAIL (Low Credibility)" := by
  have hurls : findUrls half_example =
      ["http://arxiv.org/a", "http://example.com/b"] := by decide
  have htr : eval_trusted half_example = ["http://arxiv.org/a"] := by decide
  have hs : eval_score half_example = 1 / 2 := by
    rw [eval_score_of_nonempty half_example (by rw [hurls]; simp), htr, hurls]
    norm_num
  have hempty := (claim2_threshold "").2.2 rfl
  exact ⟨hs, (claim2_threshold half_example).2.1 hs, hempty.1, hempty.2⟩

/-! ## Claim C6 — URL extraction, trust classification, score formula -/

/-- A finding with four URLs of which three are allow-listed (one inside
parentheses, which the URL pattern must not swallow). -/
def four_url_example : String :=
  "See http://arxiv.org/abs/1 and http://mit.edu/x plus (https://nature.com/y) also http://blog.example.com/z"

/-- A finding containing the same URL twice. -/
def dup_url_example : String := "go http://a.com/p then http://a.com/p again"

/-- C6: the trusted set is the filter of the extracted URLs by
allow-list-substring containment (`dom in u` over the five fixed domains,
i.e. some domain's characters occur contiguously in the URL), and the
score is the trusted count over the total count, `0` when no URLs are
extracted. -/
theorem claim6_score_definition (s : String) :
    eval_trusted s =
      (findUrls s).filter
        (fun u => preferred_domains.any (fun dom => strContains u dom)) ∧
    (∀ u : String, isTrustedUrl u = true ↔
      ∃ dom ∈ preferred_domains, ∃ a b, u.data = a ++ dom.data ++ b) ∧
    (findUrls s = [] → eval_score s = 0) ∧
    (findUrls s ≠ [] →
      eval_score s = ((eval_trusted s).length : ℚ) / ((findUrls s).length : ℚ)) := by
  refine ⟨rfl, ?_, eval_score_of_empty s, eval_score_of_nonempty s⟩
  intro u
  simp only [isTrustedUrl, List.any_eq_true, strContains]
  constructor
  · rintro ⟨dom, hmem, hc⟩
    exact ⟨dom, hmem, (listContainsSub_iff _ _).mp hc⟩
  · rintro ⟨dom, hmem, a, b, hab⟩
    exact ⟨dom, hmem, (listContainsSub_iff _ _).mpr ⟨a, b, hab⟩⟩

/-- C6, witness: on the four-URL finding the extraction returns the four
URLs in text order, three are trusted, the score is `0.75` and the status
is PASS; duplicates are preserved by extraction. -/
theorem claim6_score_definition_witness :
    findUrls four_url_example =
      ["http://arxiv.org/abs/1", "http://mit.edu/x", "https://nature.com/y",
       "http://blog.example.com/z"] ∧
    eval_score four_url_example = 3 / 4 ∧
    eval_error_analysis four_url_example = "PASS" ∧
    findUrls dup_url_example = ["http://a.com/p", "http://a.com/p"] := by
  have hurls : findUrls four_url_example =
      ["http://arxiv.org/abs/1", "http://mit.edu/x", "https://nature.com/y",
       "http://blog.example.com/z"] := by decide
  have htr : eval_trusted four_url_example =
      ["http://arxiv.org/abs/1", "http://mit.edu/x", "https://nature.com/y"] := by
    decide
  have h := (claim6_score_definition four_url_example).2.2.2 (by rw [hurls]; simp)
  have hsc : eval_score four_url_example = 3 / 4 := by
    rw [h, htr, hurls]
    norm_num
  refine ⟨hurls, hsc, ?_, by decide⟩
  unfold eval_error_analysis
  rw [hsc, if_pos (show (3 : ℚ) / 4 > 1 / 2 by norm_num)]

/-! ## Claim C10 — the evaluator is total -/

/-- C10: on every input string the evaluator produces one of the two
verdict strings (it can never raise: the quotient defining the score is
taken only under the guard that the extracted URL list is non-empty, and
the score is `0.0` otherwise). -/
theorem claim10_evaluator_total (s : String) :
    (eval_error_analysis s = "PASS" ∨
      eval_error_analysis s = "FAIL (Low Credibility)") ∧
    (findUrls s = [] → eval_score s = 0) ∧
    ((findUrls s).isEmpty = false →
      eval_score s = ((eval_trusted s).length : ℚ) / ((findUrls s).length : ℚ)) := by
  refine ⟨?_, eval_score_of_empty s, ?_⟩
  · unfold eval_error_analysis
    by_cases h : eval_score s > 1 / 2
    · exact Or.inl (if_pos h)
    · exact Or.inr (if_neg h)
  · intro h
    exact eval_score_of_nonempty s (by simpa [List.isEmpty_iff] using h)

/-- C10, witness: totality at the empty string (zero URLs) and at a
finding with URLs. -/
theorem claim10_evaluator_total_witness :
    (eval_error_analysis "" = "PASS" ∨
      eval_error_analysis "" = "FAIL (Low Credibility)") ∧
    eval_score "" = 0 ∧
    eval_score half_example =
      ((eval_trusted half_example).length : ℚ) / ((findUrls half_example).length : ℚ) :=
  ⟨(claim10_evaluator_total "").1,
   (claim10_evaluator_total "").2.1 rfl,
   (claim10_evaluator_total half_example).2.2 (by decide)⟩

/-! ## Shared orchestrator lemmas -/

/-- The corpus the loop is expected to build: the concatenation, in plan
order, of each step's label followed by that step's finding. -/
def labeled_corpus (gw : Gateway) (current_date : String) : List String → String
  | [] => ""
  | s :: rest =>
    step_label s ++ tools_usage_agent gw current_date s ++
      labeled_corpus gw current_date rest

theorem research_loop_general (gw : Gateway) (current_date : String)
    (plan : List String) (a : String) (v : List String) :
    plan.foldl (research_step gw current_date) (a, v) =
      (a ++ labeled_corpus gw current_date plan,
       v ++ plan.map (fun s => eval_error_analysis (tools_usage_agent gw current_date s))) := by
  induction plan generalizing a v with
  | nil => simp [labeled_corpus]
  | cons s rest ih =>
    rw [List.foldl_cons]
    rw [show research_step gw current_date (a, v) s =
      (a ++ (step_label s ++ tools_usage_agent gw current_date s),
       v ++ [eval_error_analysis (tools_usage_agent gw current_date s)]) from rfl]
    rw [ih]
    simp [labeled_corpus, String.append_assoc]

theorem research_loop_eq (gw : Gateway) (current_date : String) (plan : List String) :
    research_loop gw current_date plan =
      (labeled_corpus gw current_date plan,
       plan.map (fun s => eval_error_analysis (tools_usage_agent gw current_date s))) := by
  have h := research_loop_general gw current_date plan "" []
  unfold research_loop
  rw [h, String.empty_append, List.nil_append]

/-! ## Claim C7 — every step processed once, in plan order -/

/-- C7: for every gateway behaviour (in particular for ones whose findings
evaluate to FAIL at any step), the orchestrator's loop over the plan
produces the corpus that concatenates each step's labeled finding in exact
plan order, and one verdict per step in the same order: no step is
skipped, repeated or reordered, and no verdict gates a later step. -/
theorem claim7_steps_in_order (gw : Gateway) (current_date : String)
    (plan : List String) :
    research_loop gw current_date plan =
      (labeled_corpus gw current_date plan,
       plan.map (fun s => eval_error_analysis (tools_usage_agent gw current_date s))) ∧
    (research_loop gw current_date plan).2.length = plan.length := by
  have h := research_loop_eq gw current_date plan
  refine ⟨h, ?_⟩
  rw [h]
  simp

/-! ## Claim C8 — three phases, critique and draft carried verbatim -/

/-- C8: the engine makes exactly three gateway calls — draft (writer
model), critique of that draft (editor model), revision (writer model) in
that order — and the revision call's user message contains the full
critique text and the full draft text verbatim. -/
theorem claim8_three_phases (gw : Gateway) (topic data : String) :
    drafting_calls gw topic data =
      [(WRITER_MODEL, [⟨"user", draft_prompt topic data⟩]),
       (EDITOR_MODEL, [⟨"user", critique_prompt (draft_of gw topic data)⟩]),
       (WRITER_MODEL,
        [⟨"system", "Revise based on critique."⟩,
         ⟨"user", revise_user_content (reflection_of gw topic data) (draft_of gw topic data)⟩])] ∧
    (drafting_calls gw topic data).length = 3 ∧
    (∃ x y : String,
      revise_user_content (reflection_of gw topic data) (draft_of gw topic data) =
        x ++ reflection_of gw topic data ++ y) ∧
    (∃ x : String,
      revise_user_content (reflection_of gw topic data) (draft_of gw topic data) =
        x ++ draft_of gw topic data) ∧
    drafting_reflection_loop gw topic data =
      gw WRITER_MODEL
        [⟨"system", "Revise based on critique."⟩,
         ⟨"user", revise_user_content (reflection_of gw topic data) (draft_of gw topic data)⟩] := by
  refine ⟨rfl, rfl, ?_, ⟨"Critique: " ++ reflection_of gw topic data ++ "\n\nDraft: ", rfl⟩, rfl⟩
  exact ⟨"Critique: ", "\n\nDraft: " ++ draft_of gw topic data,
    String.append_assoc ("Critique: " ++ reflection_of gw topic data)
      "\n\nDraft: " (draft_of gw topic data)⟩

/-! ## Claim C9 — one final report, one verdict per plan step -/

/-- C9, counterexample.  The claim states that for every topic the
end-to-end run produces exactly one final report.  That is not
unconditional: when the planner's response contains a bracketed substring
whose decoding fails, the decode exception aborts the whole run before
any research step, and no final report (and no verdict) is produced. -/
theorem claim9_counterexample :
    planning_agent malformedGw "T" = Option.none ∧
    run_research_pipeline malformedGw "2026-10-12" "T" = Option.none :=
  ⟨rfl, rfl⟩

/-- C9, amended: whenever the planner call returns a plan (i.e. on every
run that does not abort in the planner's literal decoding), the
end-to-end run produces exactly one final report together with exactly
one credibility verdict per plan step: the verdict count equals the plan
length.  Runs whose planner decode raises produce no report at all. -/
theorem claim9_one_report_and_verdicts (gw : Gateway) (current_date topic : String)
    (plan : List PyVal) (h : planning_agent gw topic = Option.some plan) :
    ∃ report verdicts,
      run_research_pipeline gw current_date topic = Option.some (report, verdicts) ∧
      verdicts.length = plan.length := by
  refine ⟨drafting_reflection_loop gw topic
            (research_loop gw current_date (plan.map pyStr)).1,
          (research_loop gw current_date (plan.map pyStr)).2, ?_, ?_⟩
  · simp only [run_research_pipeline, h]
  · rw [research_loop_eq]
    simp

/-- C9, witness: an end-to-end run over a two-step plan yields a report
and exactly two verdicts. -/
theorem claim9_one_report_and_verdicts_witness :
    ∃ report verdicts,
      run_research_pipeline demoGw "2026-10-12" "Topic X" =
        Option.some (report, verdicts) ∧
      verdicts.length = 2 :=
  claim9_one_report_and_verdicts demoGw "2026-10-12" "Topic X"
    [PyVal.str "step one", PyVal.str "step two"] rfl

end ResearchPipeline
